import Mathlib

/-!
Shallow embedding of the Hunty-contract core (contracts/hunty-core):
the hunt/clue/player data model (`types.rs`), the persistent indexed
storage layer (`storage.rs`) and the hunt lifecycle operations
(`lib.rs`).

Modelling conventions:
* Soroban `Address` values are opaque, equality-comparable identities;
  we model them as `Nat`.
* Soroban `String` is modelled as Lean `String`; the code only ever
  inspects its length (`title.len()`, `description.len()`).
* Machine integers are `Nat`/`Int`; where overflow matters (the `u64`
  hunt counter `current + 1`, the `u32` score `total_score += points`)
  the release-mode wrapping semantics is made explicit with `% 2^w`.
* The persistent key-value store becomes an explicit `State` record of
  association lists, one per key prefix used in `storage.rs`
  (HUNT, CLUE, PROG, CLST, PLRS, CNTR).  Every lifecycle operation
  threads the state and returns `Except HuntErrorCode α × State`;
  error paths in the source return before any write, so they return
  the incoming state unchanged.
* The ledger clock (`env.ledger().timestamp()`) and the caller
  identity (`env.invoker()`) are external inputs, passed as explicit
  arguments `now` and `caller`.
* Event emission (`env.events().publish`) is a fire-and-forget
  notification to an external sink and is not part of the state.
-/

/-- Hunt lifecycle status (`types.rs`, `HuntStatus`). -/
inductive HuntStatus where
  | Draft
  | Active
  | Completed
  | Cancelled
deriving DecidableEq, Repr

/-- Error codes (`errors.rs`, `HuntErrorCode`).  The `NoCluesAdded`
variant is referenced by `lib.rs` (`activate_hunt`, line 115) although
the enum in `errors.rs` omits it; it is modelled as present since
`activate_hunt` returns it. -/
inductive HuntErrorCode where
  | HuntNotFound
  | ClueNotFound
  | InvalidHuntStatus
  | PlayerNotRegistered
  | ClueAlreadyCompleted
  | InvalidAnswer
  | HuntNotActive
  | Unauthorized
  | InsufficientRewardPool
  | DuplicateRegistration
  | InvalidTitle
  | InvalidDescription
  | InvalidAddress
  | NoCluesAdded
deriving DecidableEq, Repr

/-- Source `types.rs`, `RewardConfig`. -/
structure RewardConfig where
  xlm_pool : Int
  nft_enabled : Bool
  nft_contract : Option Nat
  max_winners : Nat
  claimed_count : Nat
deriving DecidableEq, Repr

/-- Source `RewardConfig::new` (`types.rs`): sets `claimed_count` to 0. -/
def RewardConfig.new (xlm_pool : Int) (nft_enabled : Bool)
    (nft_contract : Option Nat) (max_winners : Nat) : RewardConfig :=
  { xlm_pool := xlm_pool, nft_enabled := nft_enabled,
    nft_contract := nft_contract, max_winners := max_winners,
    claimed_count := 0 }

/-- Source `RewardConfig::reward_per_winner` (`types.rs`): returns 0 when
`max_winners == 0`, otherwise `xlm_pool / (max_winners as i128)`.
Rust `i128` division truncates toward zero, hence `Int.tdiv`. -/
def RewardConfig.reward_per_winner (c : RewardConfig) : Int :=
  if c.max_winners = 0 then 0
  else Int.tdiv c.xlm_pool (c.max_winners : Int)

/-- Source `types.rs`, `Hunt`. -/
structure Hunt where
  hunt_id : Nat
  creator : Nat
  title : String
  description : String
  status : HuntStatus
  created_at : Nat
  activated_at : Nat
  end_time : Nat
  reward_config : RewardConfig
  total_clues : Nat
  required_clues : Nat
deriving DecidableEq, Repr

/-- Source `types.rs`, `Location`. -/
structure Location where
  latitude : Int
  longitude : Int
  radius : Nat
deriving DecidableEq, Repr

/-- Source `types.rs`, `Clue`. -/
structure Clue where
  clue_id : Nat
  question : String
  answer_hash : String
  points : Nat
  is_required : Bool
  hint : String
  has_location : Bool
  location : Location
deriving DecidableEq, Repr

/-- Source `types.rs`, `PlayerProgress`. -/
structure PlayerProgress where
  player : Nat
  hunt_id : Nat
  completed_clues : List Nat
  total_score : Nat
  started_at : Nat
  completed_at : Nat
  is_completed : Bool
  reward_claimed : Bool
deriving DecidableEq, Repr

/-- The linear scan of `PlayerProgress::has_completed_clue`
(`types.rs`, lines 96-103): walk the vector, return `true` on the
first element equal to `clue_id`. -/
def scanContains : List Nat → Nat → Bool
  | [], _ => false
  | c :: rest, x => if c = x then true else scanContains rest x

/-- Source `PlayerProgress::has_completed_clue` (`types.rs`). -/
def PlayerProgress.has_completed_clue (p : PlayerProgress) (clue_id : Nat) : Bool :=
  scanContains p.completed_clues clue_id

/-- Source `PlayerProgress::complete_clue` (`types.rs`, lines 105-110): no-op
when the clue is already recorded, otherwise push the clue id and add
the points.  `total_score += points` is `u32` addition, wrapping in a
release build, hence the `% 2^32`. -/
def PlayerProgress.complete_clue (p : PlayerProgress) (clue_id points : Nat) :
    PlayerProgress :=
  if p.has_completed_clue clue_id then p
  else { p with completed_clues := p.completed_clues ++ [clue_id],
                total_score := (p.total_score + points) % 2 ^ 32 }

/-- One step of the index loop `for i in 0..len` in
`has_completed_clue`, with the `self.completed_clues.get(i).unwrap()`
panic made explicit: `none` is the panic outcome of `unwrap` on an
out-of-range `get`.  `fuel` counts the remaining iterations. -/
def hasCompletedGo (cs : List Nat) (x : Nat) : Nat → Nat → Option Bool
  | 0, _ => some false
  | fuel + 1, i =>
    match cs.get? i with
    | none => none
    | some v => if v = x then some true else hasCompletedGo cs x fuel (i + 1)

/-- Source `PlayerProgress::has_completed_clue` with the `unwrap` panic made
explicit (`none` = panic). -/
def hasCompletedChecked (p : PlayerProgress) (clue_id : Nat) : Option Bool :=
  hasCompletedGo p.completed_clues clue_id p.completed_clues.length 0

/-- Source `PlayerProgress::complete_clue` with the only potential panic of
its call graph (the `unwrap` inside `has_completed_clue`) made
explicit: `none` is the panic outcome. -/
def completeClueChecked (p : PlayerProgress) (clue_id points : Nat) :
    Option PlayerProgress :=
  match hasCompletedChecked p clue_id with
  | none => none
  | some true => some p
  | some false =>
      some { p with completed_clues := p.completed_clues ++ [clue_id],
                    total_score := (p.total_score + points) % 2 ^ 32 }

/-- Source `Hunt::is_active` (`types.rs`). -/
def Hunt.is_active (h : Hunt) (current_time : Nat) : Bool :=
  h.status = HuntStatus.Active && (h.end_time = 0 || current_time < h.end_time)

/-- Source `Hunt::has_rewards_available` (`types.rs`). -/
def Hunt.has_rewards_available (h : Hunt) : Bool :=
  h.reward_config.claimed_count < h.reward_config.max_winners

/-! ## The persistent store (`storage.rs`)

Association-list maps with exact-overwrite `put` semantics. -/

/-- Lookup in an association list (the store's `get(key)`). -/
def getKey {α β : Type} [DecidableEq α] : List (α × β) → α → Option β
  | [], _ => none
  | (k', v) :: rest, k => if k = k' then some v else getKey rest k

/-- Overwrite-or-insert in an association list (the store's
`set(key, value)`). -/
def setKey {α β : Type} [DecidableEq α] : List (α × β) → α → β → List (α × β)
  | [], k, v => [(k, v)]
  | (k', v') :: rest, k, v =>
    if k = k' then (k, v) :: rest else (k', v') :: setKey rest k v

/-- The persistent contract state: one map per key prefix of
`storage.rs` (`HUNT`, `CLUE`, `PROG`, `CLST`, `PLRS`) plus the global
counter record (`CNTR`; `none` models the key being absent, read back
through `unwrap_or(0)`). -/
structure State where
  hunts : List (Nat × Hunt)
  clues : List ((Nat × Nat) × Clue)
  progress : List ((Nat × Nat) × PlayerProgress)
  clue_lists : List (Nat × List Nat)
  player_lists : List (Nat × List Nat)
  hunt_counter : Option Nat
deriving DecidableEq, Repr

/-- A fresh deployment: every key absent. -/
def initialState : State :=
  { hunts := [], clues := [], progress := [], clue_lists := [],
    player_lists := [], hunt_counter := none }

/-- Source `Storage::save_hunt`. -/
def save_hunt (s : State) (h : Hunt) : State :=
  { s with hunts := setKey s.hunts h.hunt_id h }

/-- Source `Storage::get_hunt`. -/
def get_hunt (s : State) (hunt_id : Nat) : Option Hunt :=
  getKey s.hunts hunt_id

/-- Source `Storage::get_clue`. -/
def get_clue (s : State) (hunt_id clue_id : Nat) : Option Clue :=
  getKey s.clues (hunt_id, clue_id)

/-- Source `Storage::get_clue_ids_for_hunt`: the stored clue-id list, or
empty when the key is absent (`unwrap_or_else(Vec::new)`). -/
def get_clue_ids_for_hunt (s : State) (hunt_id : Nat) : List Nat :=
  (getKey s.clue_lists hunt_id).getD []

/-- Source `Storage::get_player_addresses_for_hunt`. -/
def get_player_addresses_for_hunt (s : State) (hunt_id : Nat) : List Nat :=
  (getKey s.player_lists hunt_id).getD []

/-- Source `Storage::add_clue_to_list` (`storage.rs`, lines 242-265): read
the list (or empty), linear-scan for the id, append and write back
only when absent. -/
def add_clue_to_list (s : State) (hunt_id clue_id : Nat) : State :=
  let clue_ids := get_clue_ids_for_hunt s hunt_id
  if scanContains clue_ids clue_id then s
  else { s with clue_lists := setKey s.clue_lists hunt_id (clue_ids ++ [clue_id]) }

/-- Source `Storage::add_player_to_list` (`storage.rs`, lines 278-301). -/
def add_player_to_list (s : State) (hunt_id player : Nat) : State :=
  let players := get_player_addresses_for_hunt s hunt_id
  if scanContains players player then s
  else { s with player_lists := setKey s.player_lists hunt_id (players ++ [player]) }

/-- Source `Storage::save_clue`: store the clue under the composite key, then
maintain the clue-id list. -/
def save_clue (s : State) (hunt_id : Nat) (c : Clue) : State :=
  let s1 := { s with clues := setKey s.clues (hunt_id, c.clue_id) c }
  add_clue_to_list s1 hunt_id c.clue_id

/-- Source `Storage::get_player_progress`. -/
def get_player_progress (s : State) (hunt_id player : Nat) : Option PlayerProgress :=
  getKey s.progress (hunt_id, player)

/-- Source `Storage::save_player_progress`: store the record under the
composite key, then maintain the player list. -/
def save_player_progress (s : State) (p : PlayerProgress) : State :=
  let s1 := { s with progress := setKey s.progress (p.hunt_id, p.player) p }
  add_player_to_list s1 p.hunt_id p.player

/-- Source `Storage::next_hunt_id` (`storage.rs`, lines 322-328): read the
counter (default 0), add one (`u64`, wrapping in release), persist,
return the new value. -/
def next_hunt_id (s : State) : Nat × State :=
  let current := s.hunt_counter.getD 0
  let next := (current + 1) % 2 ^ 64
  (next, { s with hunt_counter := some next })

/-- Source `Storage::get_hunt_counter` (`storage.rs`, lines 337-340). -/
def get_hunt_counter (s : State) : Nat :=
  s.hunt_counter.getD 0

/-! ## Lifecycle operations (`lib.rs`) -/

/-- Source `HuntyCore::create_hunt` (`lib.rs`, lines 29-99).  Validation runs
before any write; error paths leave the state untouched.  `now` is the
ledger timestamp, `_start_time` is accepted and ignored as in the
source. -/
def create_hunt (s : State) (creator : Nat) (title description : String)
    (start_time end_time : Option Nat) (now : Nat) :
    Except HuntErrorCode Nat × State :=
  let _ := start_time
  let title_len := title.length
  if title_len = 0 then (Except.error HuntErrorCode.InvalidTitle, s)
  else if 200 < title_len then (Except.error HuntErrorCode.InvalidTitle, s)
  else if 2000 < description.length then
    (Except.error HuntErrorCode.InvalidDescription, s)
  else
    let (hunt_id, s1) := next_hunt_id s
    let reward_config := RewardConfig.new 0 false none 0
    let hunt : Hunt :=
      { hunt_id := hunt_id, creator := creator, title := title,
        description := description, status := HuntStatus.Draft,
        created_at := now, activated_at := 0,
        end_time := end_time.getD 0, reward_config := reward_config,
        total_clues := 0, required_clues := 0 }
    (Except.ok hunt_id, save_hunt s1 hunt)

/-- Source `HuntyCore::activate_hunt` (`lib.rs`, lines 101-133).  `caller` is
`env.invoker()`, `now` the ledger timestamp. -/
def activate_hunt (s : State) (caller hunt_id now : Nat) :
    Except HuntErrorCode Unit × State :=
  match get_hunt s hunt_id with
  | none => (Except.error HuntErrorCode.HuntNotFound, s)
  | some hunt =>
    if caller ≠ hunt.creator then (Except.error HuntErrorCode.Unauthorized, s)
    else if hunt.status ≠ HuntStatus.Draft then
      (Except.error HuntErrorCode.InvalidHuntStatus, s)
    else if hunt.total_clues = 0 then
      (Except.error HuntErrorCode.NoCluesAdded, s)
    else
      (Except.ok (),
       save_hunt s { hunt with status := HuntStatus.Active, activated_at := now })

/-- Source `HuntyCore::deactivate_hunt` (`lib.rs`, lines 135-160): only an
`Active` hunt owned by the caller goes back to `Draft`; `activated_at`
is left as it was. -/
def deactivate_hunt (s : State) (caller hunt_id : Nat) :
    Except HuntErrorCode Unit × State :=
  match get_hunt s hunt_id with
  | none => (Except.error HuntErrorCode.HuntNotFound, s)
  | some hunt =>
    if caller ≠ hunt.creator then (Except.error HuntErrorCode.Unauthorized, s)
    else if hunt.status ≠ HuntStatus.Active then
      (Except.error HuntErrorCode.InvalidHuntStatus, s)
    else
      (Except.ok (), save_hunt s { hunt with status := HuntStatus.Draft })

/-- Source `HuntyCore::cancel_hunt` (`lib.rs`, lines 162-199): rejects
`Completed` and `Cancelled`, otherwise transitions to `Cancelled`
(the refund step is an unimplemented stub in the source). -/
def cancel_hunt (s : State) (caller hunt_id : Nat) :
    Except HuntErrorCode Unit × State :=
  match get_hunt s hunt_id with
  | none => (Except.error HuntErrorCode.HuntNotFound, s)
  | some hunt =>
    if caller ≠ hunt.creator then (Except.error HuntErrorCode.Unauthorized, s)
    else if hunt.status = HuntStatus.Completed then
      (Except.error HuntErrorCode.InvalidHuntStatus, s)
    else if hunt.status = HuntStatus.Cancelled then
      (Except.error HuntErrorCode.InvalidHuntStatus, s)
    else
      (Except.ok (), save_hunt s { hunt with status := HuntStatus.Cancelled })

/-- Source `PlayerProgress::new` (`types.rs`, lines 83-94). -/
def PlayerProgress.new (player hunt_id current_time : Nat) : PlayerProgress :=
  { player := player, hunt_id := hunt_id, completed_clues := [],
    total_score := 0, started_at := current_time, completed_at := 0,
    is_completed := false, reward_claimed := false }

/-- The caller-chosen arguments of one `create_hunt` invocation
(creator address, title, description, end time, ledger timestamp). -/
structure CreateArgs where
  creator : Nat
  title : String
  description : String
  end_time : Option Nat
  now : Nat

/-- The validation preconditions of `create_hunt`: title length in
[1,200], description length at most 2000. -/
def validArgs (a : CreateArgs) : Prop :=
  1 ≤ a.title.length ∧ a.title.length ≤ 200 ∧ a.description.length ≤ 2000

/-- Runs `k` sequential `create_hunt` invocations, the `j`-th one with
arguments `f j`, collecting the returned ids in call order; stops at
the first failing call. -/
def runCreatesFrom (f : Nat → CreateArgs) : Nat → Nat → State → List Nat × State
  | _, 0, s => ([], s)
  | j, k + 1, s =>
    match create_hunt s (f j).creator (f j).title (f j).description
        none (f j).end_time (f j).now with
    | (Except.ok hid, s1) =>
      let r := runCreatesFrom f (j + 1) k s1
      (hid :: r.1, r.2)
    | (Except.error _, s1) => ([], s1)

deriving instance DecidableEq for Except

/-- Concrete hunt fixture for witnesses. -/
def mkHunt (creator : Nat) (status : HuntStatus) (total_clues : Nat) : Hunt :=
  { hunt_id := 1, creator := creator, title := "t", description := "d",
    status := status, created_at := 0, activated_at := 0, end_time := 0,
    reward_config := RewardConfig.new 0 false none 0,
    total_clues := total_clues, required_clues := 0 }

/-- Concrete one-hunt state fixture for witnesses (hunt stored under
its own id, 1, as every save in the source does). -/
def oneHuntState (h : Hunt) : State :=
  { hunts := [(1, h)], clues := [], progress := [], clue_lists := [],
    player_lists := [], hunt_counter := some 1 }

/-- Concrete clue fixture for witnesses. -/
def mkClue (cid : Nat) : Clue :=
  { clue_id := cid, question := "q", answer_hash := "ah", points := 5,
    is_required := true, hint := "", has_location := false,
    location := { latitude := 0, longitude := 0, radius := 0 } }

/-! ## Basic lemmas about the store primitives -/

theorem getKey_setKey_self {α β : Type} [DecidableEq α]
    (l : List (α × β)) (k : α) (v : β) :
    getKey (setKey l k v) k = some v := by
  induction l with
  | nil => simp [setKey, getKey]
  | cons hd tl ih =>
    obtain ⟨k', v'⟩ := hd
    by_cases h : k = k'
    · simp [setKey, getKey, h]
    · simp [setKey, getKey, h, ih]

theorem getKey_setKey_ne {α β : Type} [DecidableEq α]
    (l : List (α × β)) (k k' : α) (v : β) (h : k' ≠ k) :
    getKey (setKey l k v) k' = getKey l k' := by
  induction l with
  | nil => simp [setKey, getKey, h]
  | cons hd tl ih =>
    obtain ⟨k0, v0⟩ := hd
    by_cases hk : k = k0
    · subst hk; simp [setKey, getKey, h]
    · by_cases hk' : k' = k0
      · simp [setKey, getKey, hk, hk']
      · simp [setKey, getKey, hk, hk', ih]

theorem scanContains_iff (l : List Nat) (x : Nat) :
    scanContains l x = true ↔ x ∈ l := by
  induction l with
  | nil => simp [scanContains]
  | cons c rest ih =>
    simp only [scanContains, List.mem_cons]
    by_cases h : c = x
    · simp [h]
    · simp only [if_neg h, ih]
      constructor
      · exact Or.inr
      · rintro (rfl | hx)
        · exact absurd rfl h
        · exact hx

theorem scanContains_append_self (l : List Nat) (x : Nat) :
    scanContains (l ++ [x]) x = true := by
  rw [scanContains_iff]
  simp

/-! ## C1: valid creations -/

/-- C1: for every title whose length is in [1,200] and every
description whose length is in [0,2000] (bounds inclusive, so
exactly-at-bound lengths are valid), `create_hunt` succeeds and the
hunt it stores has status `Draft`, `total_clues` 0, `required_clues`
0, `activated_at` 0, and a reward config with `xlm_pool` 0,
`nft_enabled` false, `nft_contract` none and `max_winners` 0. -/
theorem create_hunt_valid_stores_draft (s : State) (creator : Nat)
    (title description : String) (st et : Option Nat) (now : Nat)
    (h1 : 1 ≤ title.length) (h2 : title.length ≤ 200)
    (h3 : description.length ≤ 2000) :
    ∃ hid s', create_hunt s creator title description st et now =
        (Except.ok hid, s') ∧
      ∃ h, get_hunt s' hid = some h ∧
        h.status = HuntStatus.Draft ∧ h.total_clues = 0 ∧
        h.required_clues = 0 ∧ h.activated_at = 0 ∧
        h.reward_config.xlm_pool = 0 ∧ h.reward_config.nft_enabled = false ∧
        h.reward_config.nft_contract = none ∧ h.reward_config.max_winners = 0 := by
  have ht0 : ¬ title.length = 0 := by omega
  have ht2 : ¬ 200 < title.length := by omega
  have hd : ¬ 2000 < description.length := by omega
  unfold create_hunt next_hunt_id
  simp only [if_neg ht0, if_neg ht2, if_neg hd]
  exact ⟨_, _, rfl, _, getKey_setKey_self _ _ _,
    rfl, rfl, rfl, rfl, rfl, rfl, rfl, rfl⟩

/-- C1 witness: at the exact bounds (title length 200, description
length 2000) the creation succeeds with the claimed stored fields. -/
theorem create_hunt_valid_stores_draft_witness :
    (1 ≤ (String.mk (List.replicate 200 'a')).length ∧
     (String.mk (List.replicate 200 'a')).length ≤ 200 ∧
     (String.mk (List.replicate 2000 'b')).length ≤ 2000) ∧
    (∃ hid s', create_hunt initialState 7 (String.mk (List.replicate 200 'a'))
        (String.mk (List.replicate 2000 'b')) none none 5 =
        (Except.ok hid, s') ∧
      ∃ h, get_hunt s' hid = some h ∧
        h.status = HuntStatus.Draft ∧ h.total_clues = 0 ∧
        h.required_clues = 0 ∧ h.activated_at = 0 ∧
        h.reward_config.xlm_pool = 0 ∧ h.reward_config.nft_enabled = false ∧
        h.reward_config.nft_contract = none ∧ h.reward_config.max_winners = 0) :=
  ⟨⟨by show 1 ≤ (List.replicate 200 'a').length; simp only [List.length_replicate]; decide,
    by show (List.replicate 200 'a').length ≤ 200; simp only [List.length_replicate]; decide,
    by show (List.replicate 2000 'b').length ≤ 2000; simp only [List.length_replicate]; decide⟩,
   create_hunt_valid_stores_draft initialState 7 _ _ none none 5
     (by show 1 ≤ (List.replicate 200 'a').length; simp only [List.length_replicate]; decide)
     (by show (List.replicate 200 'a').length ≤ 200; simp only [List.length_replicate]; decide)
     (by show (List.replicate 2000 'b').length ≤ 2000; simp only [List.length_replicate]; decide)⟩

/-! ## C3: invalid creations write nothing -/

/-- C3: `create_hunt` with an empty title, or a title of length 201,
fails with `InvalidTitle`; with a valid title and a description of
length 2001 it fails with `InvalidDescription`; in every such failing
call the returned state is exactly the incoming state, so the counter
has not advanced and no hunt record was written. -/
theorem create_hunt_invalid_no_write (s : State) (creator : Nat)
    (title description : String) (st et : Option Nat) (now : Nat) :
    (title.length = 0 → create_hunt s creator title description st et now =
        (Except.error HuntErrorCode.InvalidTitle, s)) ∧
    (title.length = 201 → create_hunt s creator title description st et now =
        (Except.error HuntErrorCode.InvalidTitle, s)) ∧
    (1 ≤ title.length → title.length ≤ 200 → description.length = 2001 →
      create_hunt s creator title description st et now =
        (Except.error HuntErrorCode.InvalidDescription, s)) := by
  refine ⟨?_, ?_, ?_⟩
  · intro h
    simp [create_hunt, h]
  · intro h
    have h0 : ¬ title.length = 0 := by omega
    have h2 : 200 < title.length := by omega
    simp [create_hunt, h0, h2]
  · intro ha hb hc
    have h0 : ¬ title.length = 0 := by omega
    have h2 : ¬ 200 < title.length := by omega
    have hd : 2000 < description.length := by omega
    simp [create_hunt, h0, h2, hd]

/-- C3 witness: the three failing calls at concrete inputs, each
returning the unchanged initial state. -/
theorem create_hunt_invalid_no_write_witness :
    create_hunt initialState 0 "" "d" none none 5 =
      (Except.error HuntErrorCode.InvalidTitle, initialState) ∧
    create_hunt initialState 0 (String.mk (List.replicate 201 'a')) "d"
        none none 5 =
      (Except.error HuntErrorCode.InvalidTitle, initialState) ∧
    create_hunt initialState 0 "t" (String.mk (List.replicate 2001 'b'))
        none none 5 =
      (Except.error HuntErrorCode.InvalidDescription, initialState) :=
  ⟨(create_hunt_invalid_no_write initialState 0 "" "d" none none 5).1
     (by decide),
   (create_hunt_invalid_no_write initialState 0
      (String.mk (List.replicate 201 'a')) "d" none none 5).2.1
     (by show (List.replicate 201 'a').length = 201; simp only [List.length_replicate]),
   (create_hunt_invalid_no_write initialState 0 "t"
      (String.mk (List.replicate 2001 'b')) none none 5).2.2
     (by decide) (by decide)
     (by show (List.replicate 2001 'b').length = 2001; simp only [List.length_replicate])⟩

/-! ## C6: idempotence of clue completion -/

/-- C6: completing the same clue twice (same `clue_id`, same `points`)
yields exactly the same `PlayerProgress` — hence the same
`total_score` and the same `completed_clues` length — as completing
it once. -/
theorem complete_clue_idempotent (p : PlayerProgress) (clue_id points : Nat) :
    (p.complete_clue clue_id points).complete_clue clue_id points =
      p.complete_clue clue_id points := by
  by_cases h : p.has_completed_clue clue_id
  · have e : p.complete_clue clue_id points = p := by
      rw [PlayerProgress.complete_clue, if_pos h]
    rw [e]
    exact e
  · have e : p.complete_clue clue_id points =
        { p with completed_clues := p.completed_clues ++ [clue_id],
                 total_score := (p.total_score + points) % 2 ^ 32 } := by
      rw [PlayerProgress.complete_clue, if_neg h]
    have h2 : PlayerProgress.has_completed_clue
        { p with completed_clues := p.completed_clues ++ [clue_id],
                 total_score := (p.total_score + points) % 2 ^ 32 } clue_id = true := by
      unfold PlayerProgress.has_completed_clue
      exact scanContains_append_self _ _
    rw [e, PlayerProgress.complete_clue, if_pos h2]

/-! ## C7: clue completion never fails -/

theorem hasCompletedGo_eq_scan (cs : List Nat) (x : Nat) :
    ∀ fuel i, fuel = cs.length - i →
      hasCompletedGo cs x fuel i = some (scanContains (List.drop i cs) x) := by
  intro fuel
  induction fuel with
  | zero =>
    intro i h
    have hle : cs.length ≤ i := by omega
    rw [List.drop_eq_nil_of_le hle]
    simp [hasCompletedGo, scanContains]
  | succ fuel ih =>
    intro i h
    have hi : i < cs.length := by omega
    have hget : cs.get? i = some (cs[i]) := by
      rw [List.get?_eq_get hi, List.get_eq_getElem]
    have hdrop : List.drop i cs = cs[i] :: List.drop (i + 1) cs :=
      List.drop_eq_getElem_cons hi
    simp only [hasCompletedGo, hget, hdrop, scanContains]
    by_cases hv : cs[i] = x
    · simp [hv]
    · simp only [if_neg hv, hv, decide_False, Bool.false_or]
      exact ih (i + 1) (by omega)

/-- C7: `complete_clue` never fails: for every `PlayerProgress` and
every `clue_id` and `points`, the panic-explicit rendering of the
function (the `unwrap` inside its `has_completed_clue` loop made
visible as `none`) returns `some`, and the value it returns is exactly
the total function `complete_clue` — the no-op when the clue is
already recorded, the append-and-add-points update otherwise. -/
theorem complete_clue_never_fails (p : PlayerProgress) (clue_id points : Nat) :
    completeClueChecked p clue_id points = some (p.complete_clue clue_id points) := by
  unfold completeClueChecked hasCompletedChecked
  rw [hasCompletedGo_eq_scan p.completed_clues clue_id p.completed_clues.length 0
    (by omega)]
  rw [List.drop_zero]
  unfold PlayerProgress.complete_clue PlayerProgress.has_completed_clue
  cases hb : scanContains p.completed_clues clue_id <;> simp [hb]

/-! ## C10: reward_per_winner -/

/-- C10 counterexample: the claim says `reward_per_winner` returns the
floor of `xlm_pool / max_winners` whenever `max_winners ≠ 0`, but
`i128` division truncates toward zero: for `xlm_pool = -1`,
`max_winners = 2` the code returns `0` while the floor is `-1`. -/
theorem reward_per_winner_not_floor :
    RewardConfig.reward_per_winner
        { xlm_pool := -1, nft_enabled := false, nft_contract := none,
          max_winners := 2, claimed_count := 0 } ≠
      Int.fdiv (-1) 2 := by decide

/-- C10 (amended): `reward_per_winner` returns 0 whenever
`max_winners = 0`, and otherwise returns `xlm_pool` divided by
`max_winners` truncated toward zero (never a division-by-zero fault);
whenever `xlm_pool ≥ 0` — in particular for every funded pool — this
is the floor of the quotient, remainder forfeited; for
`xlm_pool = 10000` and `max_winners = 3` it returns `3333`. -/
theorem reward_per_winner_div (c : RewardConfig) :
    (c.max_winners = 0 → c.reward_per_winner = 0) ∧
    (c.max_winners ≠ 0 →
      c.reward_per_winner = Int.tdiv c.xlm_pool (c.max_winners : Int)) ∧
    (c.max_winners ≠ 0 → 0 ≤ c.xlm_pool →
      c.reward_per_winner = Int.fdiv c.xlm_pool (c.max_winners : Int)) ∧
    RewardConfig.reward_per_winner
        { xlm_pool := 10000, nft_enabled := false, nft_contract := none,
          max_winners := 3, claimed_count := 0 } = 3333 := by
  refine ⟨?_, ?_, ?_, by decide⟩
  · intro h
    simp [RewardConfig.reward_per_winner, h]
  · intro h
    simp [RewardConfig.reward_per_winner, h]
  · intro h hp
    rw [RewardConfig.reward_per_winner, if_neg h]
    rw [Int.tdiv_eq_ediv hp (by positivity), Int.fdiv_eq_ediv _ (by positivity)]

/-- C10 witness: the amended theorem applied at the two concrete
configurations of the spec (`10000 / 3` and the zero-winner case). -/
theorem reward_per_winner_div_witness :
    RewardConfig.reward_per_winner
        { xlm_pool := 10000, nft_enabled := false, nft_contract := none,
          max_winners := 0, claimed_count := 0 } = 0 ∧
    RewardConfig.reward_per_winner
        { xlm_pool := 10000, nft_enabled := false, nft_contract := none,
          max_winners := 3, claimed_count := 0 } =
      Int.fdiv 10000 3 ∧
    RewardConfig.reward_per_winner
        { xlm_pool := 10000, nft_enabled := false, nft_contract := none,
          max_winners := 3, claimed_count := 0 } = 3333 :=
  ⟨(reward_per_winner_div
      { xlm_pool := 10000, nft_enabled := false, nft_contract := none,
        max_winners := 0, claimed_count := 0 }).1 rfl,
   ((reward_per_winner_div
      { xlm_pool := 10000, nft_enabled := false, nft_contract := none,
        max_winners := 3, claimed_count := 0 }).2.2.1 (by decide) (by decide)).trans
     (by decide),
   (reward_per_winner_div
      { xlm_pool := 10000, nft_enabled := false, nft_contract := none,
        max_winners := 3, claimed_count := 0 }).2.2.2⟩

/-! ## C2: sequential, gapless hunt ids -/

theorem create_hunt_ok_shape (s : State) (creator : Nat)
    (title description : String) (st et : Option Nat) (now : Nat)
    (h1 : 1 ≤ title.length) (h2 : title.length ≤ 200)
    (h3 : description.length ≤ 2000) :
    ∃ s', create_hunt s creator title description st et now =
        (Except.ok ((get_hunt_counter s + 1) % 2 ^ 64), s') ∧
      get_hunt_counter s' = (get_hunt_counter s + 1) % 2 ^ 64 := by
  have ht0 : ¬ title.length = 0 := by omega
  have ht2 : ¬ 200 < title.length := by omega
  have hd : ¬ 2000 < description.length := by omega
  unfold create_hunt next_hunt_id get_hunt_counter save_hunt
  simp only [if_neg ht0, if_neg ht2, if_neg hd]
  exact ⟨_, rfl, rfl⟩

theorem runCreatesFrom_spec (f : Nat → CreateArgs) :
    ∀ (k j : Nat) (s : State),
      get_hunt_counter s + k < 2 ^ 64 →
      (∀ i, j ≤ i → i < j + k → validArgs (f i)) →
      (runCreatesFrom f j k s).1 =
        List.range' (get_hunt_counter s + 1) k ∧
      get_hunt_counter (runCreatesFrom f j k s).2 =
        get_hunt_counter s + k := by
  intro k
  induction k with
  | zero =>
    intro j s hc hv
    simp [runCreatesFrom]
  | succ k ih =>
    intro j s hc hv
    obtain ⟨hv1, hv2, hv3⟩ := hv j (le_refl j) (by omega)
    obtain ⟨s', heq, hcnt⟩ := create_hunt_ok_shape s (f j).creator (f j).title
      (f j).description none (f j).end_time (f j).now hv1 hv2 hv3
    have hmod : (get_hunt_counter s + 1) % 2 ^ 64 = get_hunt_counter s + 1 :=
      Nat.mod_eq_of_lt (by omega)
    have ihs := ih (j + 1) s'
      (by rw [hcnt, hmod]; omega)
      (fun i hi1 hi2 => hv i (by omega) (by omega))
    rw [hcnt, hmod] at ihs
    simp only [runCreatesFrom, heq, hmod]
    rw [List.range'_succ]
    exact ⟨by rw [ihs.1], by rw [ihs.2]; omega⟩

/-- C2: starting from a fresh deployment, `n` sequential successful
`create_hunt` calls (any inputs satisfying the validation bounds)
return the strictly increasing, gapless ids `1, 2, ..., n` in call
order, and afterwards the stored counter (`get_hunt_counter`) reads
`n`. -/
theorem create_hunt_ids_sequential (f : Nat → CreateArgs) (n : Nat)
    (hn : n < 2 ^ 64) (hv : ∀ i, i < n → validArgs (f i)) :
    (runCreatesFrom f 0 n initialState).1 = List.range' 1 n ∧
    get_hunt_counter (runCreatesFrom f 0 n initialState).2 = n := by
  have h0 : get_hunt_counter initialState = 0 := rfl
  have h := runCreatesFrom_spec f n 0 initialState (by rw [h0]; omega)
    (fun i h1 h2 => hv i (by omega))
  rw [h0] at h
  simpa using h

/-- C2 witness: three creations from the fresh state yield ids
`[1, 2, 3]` and the counter reads 3. -/
theorem create_hunt_ids_sequential_witness :
    (runCreatesFrom (fun _ => ⟨0, "t", "d", none, 0⟩) 0 3 initialState).1 =
      List.range' 1 3 ∧
    get_hunt_counter
      (runCreatesFrom (fun _ => ⟨0, "t", "d", none, 0⟩) 0 3 initialState).2 = 3 :=
  create_hunt_ids_sequential (fun _ => ⟨0, "t", "d", none, 0⟩) 3 (by decide)
    (fun i hi => show validArgs ⟨0, "t", "d", none, 0⟩ from
      ⟨by decide, by decide, by decide⟩)

/-! ## C4: activate_hunt check order -/

/-- C4: `activate_hunt` checks its preconditions in this exact order,
returning the first failure found: missing hunt → `HuntNotFound`;
existing hunt but caller ≠ creator → `Unauthorized` (whatever the
status); creator but status ≠ Draft → `InvalidHuntStatus` (even with
zero clues); creator, Draft, but zero clues → `NoCluesAdded`. -/
theorem activate_hunt_check_order (s : State) (caller hunt_id now : Nat) :
    (get_hunt s hunt_id = none →
      activate_hunt s caller hunt_id now =
        (Except.error HuntErrorCode.HuntNotFound, s)) ∧
    (∀ h, get_hunt s hunt_id = some h → caller ≠ h.creator →
      activate_hunt s caller hunt_id now =
        (Except.error HuntErrorCode.Unauthorized, s)) ∧
    (∀ h, get_hunt s hunt_id = some h → caller = h.creator →
      h.status ≠ HuntStatus.Draft →
      activate_hunt s caller hunt_id now =
        (Except.error HuntErrorCode.InvalidHuntStatus, s)) ∧
    (∀ h, get_hunt s hunt_id = some h → caller = h.creator →
      h.status = HuntStatus.Draft → h.total_clues = 0 →
      activate_hunt s caller hunt_id now =
        (Except.error HuntErrorCode.NoCluesAdded, s)) := by
  refine ⟨?_, ?_, ?_, ?_⟩
  · intro hnone
    unfold activate_hunt
    rw [hnone]
  · intro h hsome hne
    unfold activate_hunt
    rw [hsome]
    simp [hne]
  · intro h hsome heq hst
    unfold activate_hunt
    rw [hsome]
    simp [heq, hst]
  · intro h hsome heq hst hcl
    unfold activate_hunt
    rw [hsome]
    simp [heq, hst, hcl]

/-- C4 witness: the four first-failure outcomes at concrete states —
in particular a non-creator on a non-Draft hunt gets `Unauthorized`,
and the creator on a zero-clue non-Draft hunt gets
`InvalidHuntStatus`, not `NoCluesAdded`. -/
theorem activate_hunt_check_order_witness :
    activate_hunt initialState 0 1 9 =
      (Except.error HuntErrorCode.HuntNotFound, initialState) ∧
    activate_hunt (oneHuntState (mkHunt 0 HuntStatus.Active 0)) 1 1 9 =
      (Except.error HuntErrorCode.Unauthorized,
       oneHuntState (mkHunt 0 HuntStatus.Active 0)) ∧
    activate_hunt (oneHuntState (mkHunt 0 HuntStatus.Active 0)) 0 1 9 =
      (Except.error HuntErrorCode.InvalidHuntStatus,
       oneHuntState (mkHunt 0 HuntStatus.Active 0)) ∧
    activate_hunt (oneHuntState (mkHunt 0 HuntStatus.Draft 0)) 0 1 9 =
      (Except.error HuntErrorCode.NoCluesAdded,
       oneHuntState (mkHunt 0 HuntStatus.Draft 0)) :=
  ⟨(activate_hunt_check_order initialState 0 1 9).1 (by decide),
   (activate_hunt_check_order (oneHuntState (mkHunt 0 HuntStatus.Active 0)) 1 1 9).2.1
     (mkHunt 0 HuntStatus.Active 0) (by decide) (by decide),
   (activate_hunt_check_order (oneHuntState (mkHunt 0 HuntStatus.Active 0)) 0 1 9).2.2.1
     (mkHunt 0 HuntStatus.Active 0) (by decide) (by decide) (by decide),
   (activate_hunt_check_order (oneHuntState (mkHunt 0 HuntStatus.Draft 0)) 0 1 9).2.2.2
     (mkHunt 0 HuntStatus.Draft 0) (by decide) (by decide) (by decide) (by decide)⟩

/-! ## C9: deactivate_hunt frame -/

/-- C9: when the hunt exists (stored, as every save in the source
does, under its own `hunt_id`), the caller is the creator and the
status is `Active`, `deactivate_hunt` succeeds, sets the status to
`Draft` and changes nothing else: every other field of the stored
hunt (`activated_at`, `created_at`, `creator`, `title`,
`description`, `end_time`, `reward_config`, `total_clues`,
`required_clues`) is unchanged — captured by the stored record being
exactly `h` with only `status` replaced — every other hunt reads
back unchanged, and the clue, progress, list and counter stores are
untouched. -/
theorem deactivate_hunt_frame (s : State) (caller hunt_id : Nat) (h : Hunt)
    (hsome : get_hunt s hunt_id = some h) (hkey : h.hunt_id = hunt_id)
    (hc : caller = h.creator) (hst : h.status = HuntStatus.Active) :
    ∃ s', deactivate_hunt s caller hunt_id = (Except.ok (), s') ∧
      get_hunt s' hunt_id = some { h with status := HuntStatus.Draft } ∧
      (∀ id2, id2 ≠ hunt_id → get_hunt s' id2 = get_hunt s id2) ∧
      s'.clues = s.clues ∧ s'.progress = s.progress ∧
      s'.clue_lists = s.clue_lists ∧ s'.player_lists = s.player_lists ∧
      s'.hunt_counter = s.hunt_counter := by
  subst hkey
  unfold deactivate_hunt
  rw [hsome]
  simp only [hc, ne_eq, not_true_eq_false, if_false, hst, not_false_eq_true,
    reduceIte]
  refine ⟨_, rfl, ?_, ?_, rfl, rfl, rfl, rfl, rfl⟩
  · exact getKey_setKey_self _ _ _
  · intro id2 hne
    exact getKey_setKey_ne _ _ _ _ hne

/-- C9 witness: deactivating a concrete active hunt as its creator
stores the same hunt with status `Draft` and leaves every other
component of the state unchanged. -/
theorem deactivate_hunt_frame_witness :
    (mkHunt 0 HuntStatus.Active 2).hunt_id = 1 ∧
    ∃ s', deactivate_hunt (oneHuntState (mkHunt 0 HuntStatus.Active 2)) 0 1 =
        (Except.ok (), s') ∧
      get_hunt s' 1 =
        some { mkHunt 0 HuntStatus.Active 2 with status := HuntStatus.Draft } ∧
      (∀ id2, id2 ≠ 1 →
        get_hunt s' id2 =
          get_hunt (oneHuntState (mkHunt 0 HuntStatus.Active 2)) id2) ∧
      s'.clues = (oneHuntState (mkHunt 0 HuntStatus.Active 2)).clues ∧
      s'.progress = (oneHuntState (mkHunt 0 HuntStatus.Active 2)).progress ∧
      s'.clue_lists = (oneHuntState (mkHunt 0 HuntStatus.Active 2)).clue_lists ∧
      s'.player_lists = (oneHuntState (mkHunt 0 HuntStatus.Active 2)).player_lists ∧
      s'.hunt_counter = (oneHuntState (mkHunt 0 HuntStatus.Active 2)).hunt_counter :=
  ⟨by decide,
   deactivate_hunt_frame (oneHuntState (mkHunt 0 HuntStatus.Active 2)) 0 1
     (mkHunt 0 HuntStatus.Active 2) (by decide) (by decide) (by decide) (by decide)⟩

/-! ## C5: cancel_hunt and terminality of Cancelled -/

/-- C5 counterexample: the claim says every subsequent `activate_hunt`
on a `Cancelled` hunt fails with `InvalidHuntStatus`, but
authorization is checked first: a non-creator (caller 1, creator 0)
calling `activate_hunt` on a concrete cancelled hunt fails with
`Unauthorized`, not `InvalidHuntStatus`. -/
theorem cancelled_activate_not_invalid_status :
    (activate_hunt (oneHuntState (mkHunt 0 HuntStatus.Cancelled 1)) 1 1 9).1 =
      Except.error HuntErrorCode.Unauthorized ∧
    (activate_hunt (oneHuntState (mkHunt 0 HuntStatus.Cancelled 1)) 1 1 9).1 ≠
      Except.error HuntErrorCode.InvalidHuntStatus := by decide

/-- C5 (amended): `cancel_hunt` called by the creator on a hunt in
`Completed` or `Cancelled` fails with `InvalidHuntStatus` and changes
nothing; called by the creator on a hunt in `Draft` or `Active` it
succeeds and the stored hunt becomes exactly the old one with status
`Cancelled`; and `Cancelled` is terminal: every subsequent
`activate_hunt`, `deactivate_hunt` or `cancel_hunt` on a cancelled
hunt fails leaving the state unchanged — with `InvalidHuntStatus`
when the caller is the creator and `Unauthorized` otherwise — so no
reachable sequence of operations ever moves a hunt out of
`Cancelled`. -/
theorem cancel_hunt_transitions_and_terminal (s : State) (caller hunt_id now : Nat) :
    (∀ h, get_hunt s hunt_id = some h → caller = h.creator →
      (h.status = HuntStatus.Completed ∨ h.status = HuntStatus.Cancelled) →
      cancel_hunt s caller hunt_id =
        (Except.error HuntErrorCode.InvalidHuntStatus, s)) ∧
    (∀ h, get_hunt s hunt_id = some h → h.hunt_id = hunt_id →
      caller = h.creator →
      (h.status = HuntStatus.Draft ∨ h.status = HuntStatus.Active) →
      ∃ s', cancel_hunt s caller hunt_id = (Except.ok (), s') ∧
        get_hunt s' hunt_id = some { h with status := HuntStatus.Cancelled }) ∧
    (∀ h, get_hunt s hunt_id = some h → h.status = HuntStatus.Cancelled →
      activate_hunt s caller hunt_id now =
        ((if caller = h.creator then Except.error HuntErrorCode.InvalidHuntStatus
          else Except.error HuntErrorCode.Unauthorized), s) ∧
      deactivate_hunt s caller hunt_id =
        ((if caller = h.creator then Except.error HuntErrorCode.InvalidHuntStatus
          else Except.error HuntErrorCode.Unauthorized), s) ∧
      cancel_hunt s caller hunt_id =
        ((if caller = h.creator then Except.error HuntErrorCode.InvalidHuntStatus
          else Except.error HuntErrorCode.Unauthorized), s)) := by
  refine ⟨?_, ?_, ?_⟩
  · intro h hsome hc hst
    unfold cancel_hunt
    rw [hsome]
    rcases hst with hst | hst <;> simp [hc, hst]
  · intro h hsome hkey hc hst
    subst hkey
    unfold cancel_hunt
    rw [hsome]
    have h1 : h.status ≠ HuntStatus.Completed := by
      rcases hst with hst | hst <;> rw [hst] <;> intro hcon <;> cases hcon
    have h2 : h.status ≠ HuntStatus.Cancelled := by
      rcases hst with hst | hst <;> rw [hst] <;> intro hcon <;> cases hcon
    simp only [hc, ne_eq, not_true_eq_false, if_false, h1, h2, reduceIte]
    exact ⟨_, rfl, getKey_setKey_self _ _ _⟩
  · intro h hsome hst
    by_cases hc : caller = h.creator
    · unfold activate_hunt deactivate_hunt cancel_hunt
      rw [hsome]
      simp [hc, hst]
    · unfold activate_hunt deactivate_hunt cancel_hunt
      rw [hsome]
      simp [hc, hst]

/-- C5 witness: at concrete states — the creator cancelling a
`Completed` and a `Cancelled` hunt gets `InvalidHuntStatus`;
cancelling a `Draft` and an `Active` hunt succeeds and stores the
hunt as `Cancelled`; on a cancelled hunt the creator's
`activate_hunt` and `deactivate_hunt` both fail with
`InvalidHuntStatus` and change nothing. -/
theorem cancel_hunt_transitions_and_terminal_witness :
    cancel_hunt (oneHuntState (mkHunt 0 HuntStatus.Completed 1)) 0 1 =
      (Except.error HuntErrorCode.InvalidHuntStatus,
       oneHuntState (mkHunt 0 HuntStatus.Completed 1)) ∧
    cancel_hunt (oneHuntState (mkHunt 0 HuntStatus.Cancelled 1)) 0 1 =
      (Except.error HuntErrorCode.InvalidHuntStatus,
       oneHuntState (mkHunt 0 HuntStatus.Cancelled 1)) ∧
    (∃ s', cancel_hunt (oneHuntState (mkHunt 0 HuntStatus.Draft 1)) 0 1 =
        (Except.ok (), s') ∧
      get_hunt s' 1 =
        some { mkHunt 0 HuntStatus.Draft 1 with status := HuntStatus.Cancelled }) ∧
    (∃ s', cancel_hunt (oneHuntState (mkHunt 0 HuntStatus.Active 1)) 0 1 =
        (Except.ok (), s') ∧
      get_hunt s' 1 =
        some { mkHunt 0 HuntStatus.Active 1 with status := HuntStatus.Cancelled }) ∧
    activate_hunt (oneHuntState (mkHunt 0 HuntStatus.Cancelled 1)) 0 1 9 =
      (Except.error HuntErrorCode.InvalidHuntStatus,
       oneHuntState (mkHunt 0 HuntStatus.Cancelled 1)) ∧
    deactivate_hunt (oneHuntState (mkHunt 0 HuntStatus.Cancelled 1)) 0 1 =
      (Except.error HuntErrorCode.InvalidHuntStatus,
       oneHuntState (mkHunt 0 HuntStatus.Cancelled 1)) := by
  refine ⟨?_, ?_, ?_, ?_, ?_, ?_⟩
  · exact (cancel_hunt_transitions_and_terminal
      (oneHuntState (mkHunt 0 HuntStatus.Completed 1)) 0 1 9).1
      (mkHunt 0 HuntStatus.Completed 1) (by decide) (by decide) (Or.inl (by decide))
  · exact (cancel_hunt_transitions_and_terminal
      (oneHuntState (mkHunt 0 HuntStatus.Cancelled 1)) 0 1 9).1
      (mkHunt 0 HuntStatus.Cancelled 1) (by decide) (by decide) (Or.inr (by decide))
  · exact (cancel_hunt_transitions_and_terminal
      (oneHuntState (mkHunt 0 HuntStatus.Draft 1)) 0 1 9).2.1
      (mkHunt 0 HuntStatus.Draft 1) (by decide) (by decide) (by decide)
      (Or.inl (by decide))
  · exact (cancel_hunt_transitions_and_terminal
      (oneHuntState (mkHunt 0 HuntStatus.Active 1)) 0 1 9).2.1
      (mkHunt 0 HuntStatus.Active 1) (by decide) (by decide) (by decide)
      (Or.inr (by decide))
  · have := ((cancel_hunt_transitions_and_terminal
      (oneHuntState (mkHunt 0 HuntStatus.Cancelled 1)) 0 1 9).2.2
      (mkHunt 0 HuntStatus.Cancelled 1) (by decide) (by decide)).1
    simpa using this
  · have := ((cancel_hunt_transitions_and_terminal
      (oneHuntState (mkHunt 0 HuntStatus.Cancelled 1)) 0 1 9).2.2
      (mkHunt 0 HuntStatus.Cancelled 1) (by decide) (by decide)).2.1
    simpa using this

/-! ## C8: enumeration lists stay duplicate-free and insertion-ordered -/

theorem add_clue_to_list_mem (s : State) (hid cid : Nat)
    (h : cid ∈ get_clue_ids_for_hunt s hid) :
    add_clue_to_list s hid cid = s := by
  have hs : scanContains (get_clue_ids_for_hunt s hid) cid = true :=
    (scanContains_iff _ _).mpr h
  simp only [add_clue_to_list]
  rw [if_pos hs]

theorem add_clue_to_list_not_mem (s : State) (hid cid : Nat)
    (h : cid ∉ get_clue_ids_for_hunt s hid) :
    add_clue_to_list s hid cid =
      { s with clue_lists :=
          setKey s.clue_lists hid (get_clue_ids_for_hunt s hid ++ [cid]) } := by
  have hs : ¬ scanContains (get_clue_ids_for_hunt s hid) cid = true := by
    rw [scanContains_iff]
    exact h
  simp only [add_clue_to_list]
  rw [if_neg hs]

theorem add_clue_to_list_other (s : State) (hid hid2 cid : Nat) (hne : hid2 ≠ hid) :
    get_clue_ids_for_hunt (add_clue_to_list s hid cid) hid2 =
      get_clue_ids_for_hunt s hid2 := by
  simp only [add_clue_to_list]
  by_cases hs : scanContains (get_clue_ids_for_hunt s hid) cid = true
  · rw [if_pos hs]
  · rw [if_neg hs]
    simp only [get_clue_ids_for_hunt]
    rw [getKey_setKey_ne _ _ _ _ hne]

theorem save_clue_list_mem (s : State) (hid : Nat) (c : Clue)
    (h : c.clue_id ∈ get_clue_ids_for_hunt s hid) :
    get_clue_ids_for_hunt (save_clue s hid c) hid =
      get_clue_ids_for_hunt s hid := by
  have h' : c.clue_id ∈ get_clue_ids_for_hunt
      { s with clues := setKey s.clues (hid, c.clue_id) c } hid := h
  simp only [save_clue]
  rw [add_clue_to_list_mem _ _ _ h']
  rfl

theorem save_clue_list_not_mem (s : State) (hid : Nat) (c : Clue)
    (h : c.clue_id ∉ get_clue_ids_for_hunt s hid) :
    get_clue_ids_for_hunt (save_clue s hid c) hid =
      get_clue_ids_for_hunt s hid ++ [c.clue_id] := by
  have h' : c.clue_id ∉ get_clue_ids_for_hunt
      { s with clues := setKey s.clues (hid, c.clue_id) c } hid := h
  simp only [save_clue]
  rw [add_clue_to_list_not_mem _ _ _ h']
  simp only [get_clue_ids_for_hunt]
  rw [getKey_setKey_self]
  rfl

theorem save_clue_list_nodup (s : State) (hid hid2 : Nat) (c : Clue)
    (h : (get_clue_ids_for_hunt s hid2).Nodup) :
    (get_clue_ids_for_hunt (save_clue s hid c) hid2).Nodup := by
  by_cases he : hid2 = hid
  · subst he
    by_cases hm : c.clue_id ∈ get_clue_ids_for_hunt s hid2
    · rw [save_clue_list_mem _ _ _ hm]
      exact h
    · rw [save_clue_list_not_mem _ _ _ hm]
      simp [List.nodup_append, h, hm]
  · simp only [save_clue]
    rw [add_clue_to_list_other _ _ _ _ he]
    exact h

theorem foldl_save_clue_nodup (hid hid2 : Nat) (cs : List Clue) :
    ∀ s : State, (get_clue_ids_for_hunt s hid2).Nodup →
      (get_clue_ids_for_hunt (cs.foldl (fun t c => save_clue t hid c) s) hid2).Nodup := by
  induction cs with
  | nil =>
    intro s h
    simpa using h
  | cons c rest ih =>
    intro s h
    simp only [List.foldl_cons]
    exact ih _ (save_clue_list_nodup s hid hid2 c h)

theorem add_player_to_list_mem (s : State) (hid player : Nat)
    (h : player ∈ get_player_addresses_for_hunt s hid) :
    add_player_to_list s hid player = s := by
  have hs : scanContains (get_player_addresses_for_hunt s hid) player = true :=
    (scanContains_iff _ _).mpr h
  simp only [add_player_to_list]
  rw [if_pos hs]

theorem add_player_to_list_not_mem (s : State) (hid player : Nat)
    (h : player ∉ get_player_addresses_for_hunt s hid) :
    add_player_to_list s hid player =
      { s with player_lists :=
          setKey s.player_lists hid (get_player_addresses_for_hunt s hid ++ [player]) } := by
  have hs : ¬ scanContains (get_player_addresses_for_hunt s hid) player = true := by
    rw [scanContains_iff]
    exact h
  simp only [add_player_to_list]
  rw [if_neg hs]

theorem add_player_to_list_other (s : State) (hid hid2 player : Nat) (hne : hid2 ≠ hid) :
    get_player_addresses_for_hunt (add_player_to_list s hid player) hid2 =
      get_player_addresses_for_hunt s hid2 := by
  simp only [add_player_to_list]
  by_cases hs : scanContains (get_player_addresses_for_hunt s hid) player = true
  · rw [if_pos hs]
  · rw [if_neg hs]
    simp only [get_player_addresses_for_hunt]
    rw [getKey_setKey_ne _ _ _ _ hne]

theorem save_player_list_mem (s : State) (p : PlayerProgress)
    (h : p.player ∈ get_player_addresses_for_hunt s p.hunt_id) :
    get_player_addresses_for_hunt (save_player_progress s p) p.hunt_id =
      get_player_addresses_for_hunt s p.hunt_id := by
  have h' : p.player ∈ get_player_addresses_for_hunt
      { s with progress := setKey s.progress (p.hunt_id, p.player) p } p.hunt_id := h
  simp only [save_player_progress]
  rw [add_player_to_list_mem _ _ _ h']
  rfl

theorem save_player_list_not_mem (s : State) (p : PlayerProgress)
    (h : p.player ∉ get_player_addresses_for_hunt s p.hunt_id) :
    get_player_addresses_for_hunt (save_player_progress s p) p.hunt_id =
      get_player_addresses_for_hunt s p.hunt_id ++ [p.player] := by
  have h' : p.player ∉ get_player_addresses_for_hunt
      { s with progress := setKey s.progress (p.hunt_id, p.player) p } p.hunt_id := h
  simp only [save_player_progress]
  rw [add_player_to_list_not_mem _ _ _ h']
  simp only [get_player_addresses_for_hunt]
  rw [getKey_setKey_self]
  rfl

theorem save_player_list_nodup (s : State) (hid2 : Nat) (p : PlayerProgress)
    (h : (get_player_addresses_for_hunt s hid2).Nodup) :
    (get_player_addresses_for_hunt (save_player_progress s p) hid2).Nodup := by
  by_cases he : hid2 = p.hunt_id
  · subst he
    by_cases hm : p.player ∈ get_player_addresses_for_hunt s p.hunt_id
    · rw [save_player_list_mem _ _ hm]
      exact h
    · rw [save_player_list_not_mem _ _ hm]
      simp [List.nodup_append, h, hm]
  · simp only [save_player_progress]
    rw [add_player_to_list_other _ _ _ _ he]
    exact h

theorem foldl_save_player_nodup (hid2 : Nat) (ps : List PlayerProgress) :
    ∀ s : State, (get_player_addresses_for_hunt s hid2).Nodup →
      (get_player_addresses_for_hunt (ps.foldl save_player_progress s) hid2).Nodup := by
  induction ps with
  | nil =>
    intro s h
    simpa using h
  | cons p rest ih =>
    intro s h
    simp only [List.foldl_cons]
    exact ih _ (save_player_list_nodup s hid2 p h)

/-- C8: the per-hunt clue-id and player-address enumeration lists
never contain duplicates and preserve first-insertion order: saving a
clue whose id is already in the hunt's list (via `save_clue`) leaves
the list unchanged, saving a new one appends its id at the end, and a
list that is duplicate-free stays duplicate-free under any sequence
of `save_clue` calls; the same three facts hold for player addresses
under `save_player_progress`. -/
theorem enumeration_lists_invariant (s : State) :
    (∀ (hid : Nat) (c : Clue), c.clue_id ∈ get_clue_ids_for_hunt s hid →
      get_clue_ids_for_hunt (save_clue s hid c) hid =
        get_clue_ids_for_hunt s hid) ∧
    (∀ (hid : Nat) (c : Clue), c.clue_id ∉ get_clue_ids_for_hunt s hid →
      get_clue_ids_for_hunt (save_clue s hid c) hid =
        get_clue_ids_for_hunt s hid ++ [c.clue_id]) ∧
    (∀ (hid hid2 : Nat) (cs : List Clue),
      (get_clue_ids_for_hunt s hid2).Nodup →
      (get_clue_ids_for_hunt
        (cs.foldl (fun t c => save_clue t hid c) s) hid2).Nodup) ∧
    (∀ p : PlayerProgress,
      p.player ∈ get_player_addresses_for_hunt s p.hunt_id →
      get_player_addresses_for_hunt (save_player_progress s p) p.hunt_id =
        get_player_addresses_for_hunt s p.hunt_id) ∧
    (∀ p : PlayerProgress,
      p.player ∉ get_player_addresses_for_hunt s p.hunt_id →
      get_player_addresses_for_hunt (save_player_progress s p) p.hunt_id =
        get_player_addresses_for_hunt s p.hunt_id ++ [p.player]) ∧
    (∀ (hid2 : Nat) (ps : List PlayerProgress),
      (get_player_addresses_for_hunt s hid2).Nodup →
      (get_player_addresses_for_hunt (ps.foldl save_player_progress s) hid2).Nodup) :=
  ⟨fun hid c h => save_clue_list_mem s hid c h,
   fun hid c h => save_clue_list_not_mem s hid c h,
   fun hid hid2 cs h => foldl_save_clue_nodup hid hid2 cs s h,
   fun p h => save_player_list_mem s p h,
   fun p h => save_player_list_not_mem s p h,
   fun hid2 ps h => foldl_save_player_nodup hid2 ps s h⟩

/-- C8 witness: on a concrete state, saving a fresh clue appends its
id, re-saving it leaves the list unchanged, a double save keeps the
list duplicate-free, and the same for a player record. -/
theorem enumeration_lists_invariant_witness :
    get_clue_ids_for_hunt (save_clue initialState 1 (mkClue 4)) 1 = [4] ∧
    get_clue_ids_for_hunt
        (save_clue (save_clue initialState 1 (mkClue 4)) 1 (mkClue 4)) 1 = [4] ∧
    (get_clue_ids_for_hunt
        ([mkClue 4, mkClue 4, mkClue 9].foldl
          (fun t c => save_clue t 1 c) initialState) 1).Nodup ∧
    get_player_addresses_for_hunt
        (save_player_progress initialState (PlayerProgress.new 3 1 0)) 1 = [3] ∧
    get_player_addresses_for_hunt
        (save_player_progress
          (save_player_progress initialState (PlayerProgress.new 3 1 0))
          (PlayerProgress.new 3 1 0)) 1 = [3] ∧
    (get_player_addresses_for_hunt
        ([PlayerProgress.new 3 1 0, PlayerProgress.new 3 1 0].foldl
          save_player_progress initialState) 1).Nodup := by
  have e1 : get_clue_ids_for_hunt (save_clue initialState 1 (mkClue 4)) 1 =
      get_clue_ids_for_hunt initialState 1 ++ [(mkClue 4).clue_id] :=
    (enumeration_lists_invariant initialState).2.1 1 (mkClue 4) (by decide)
  have e2 : get_clue_ids_for_hunt
        (save_clue (save_clue initialState 1 (mkClue 4)) 1 (mkClue 4)) 1 =
      get_clue_ids_for_hunt (save_clue initialState 1 (mkClue 4)) 1 :=
    (enumeration_lists_invariant (save_clue initialState 1 (mkClue 4))).1 1
      (mkClue 4) (by decide)
  have e3 := (enumeration_lists_invariant initialState).2.2.1 1 1
    [mkClue 4, mkClue 4, mkClue 9] (by decide)
  have e4 : get_player_addresses_for_hunt
        (save_player_progress initialState (PlayerProgress.new 3 1 0)) 1 =
      get_player_addresses_for_hunt initialState 1 ++ [(PlayerProgress.new 3 1 0).player] :=
    (enumeration_lists_invariant initialState).2.2.2.2.1
      (PlayerProgress.new 3 1 0) (by decide)
  have e5 : get_player_addresses_for_hunt
        (save_player_progress
          (save_player_progress initialState (PlayerProgress.new 3 1 0))
          (PlayerProgress.new 3 1 0)) 1 =
      get_player_addresses_for_hunt
        (save_player_progress initialState (PlayerProgress.new 3 1 0)) 1 :=
    (enumeration_lists_invariant
        (save_player_progress initialState (PlayerProgress.new 3 1 0))).2.2.2.1
      (PlayerProgress.new 3 1 0) (by decide)
  have e6 := (enumeration_lists_invariant initialState).2.2.2.2.2 1
    [PlayerProgress.new 3 1 0, PlayerProgress.new 3 1 0] (by decide)
  refine ⟨by rw [e1]; decide, by rw [e2, e1]; decide, e3,
    by rw [e4]; decide, by rw [e5, e4]; decide, e6⟩
